import Mathlib

/-!
Shallow embedding of the core of pytype's abstract bytecode interpreter
(src/pytype/vm.py) together with the parts of its data model (typegraph
Variables/Bindings/Origins, FrameState merging, the Program complexity
counter, container truthiness) that the verified claims depend on.
vm.py is embedded from the source; the collaborator modules that are not
part of src/ (pytype/pytd/cfg.py, pytype/state.py, pytype/abstract.py,
pytype/errors.py) are modelled from the specification where a claim
depends on them, as marked in the doc comments.
-/

namespace Pytype

/-- Abstract values attached to bindings. `inst c` is an instance whose
`cls` attribute (if present) names a class; `unsolvable` is the give-up
sentinel produced by `create_new_unsolvable`; `other` tags any further
value, which the verified claims treat opaquely. -/
inductive AbstractValue where
  | unsolvable : AbstractValue
  | inst : Option String → AbstractValue
  | other : Nat → AbstractValue
deriving DecidableEq, Repr

/-- An Origin, per the typegraph data model: a CFG node together with a
set of source sets; each source set is the set of bindings (by id) that
must all hold for the origin to apply. -/
structure Origin where
  node : Nat
  sourceSets : List (List Nat)
deriving DecidableEq, Repr

/-- A Binding pairs one candidate abstract value with its origins.
`id` models Python object identity; `visibleAt` models the visibility
query (`Variable.Bindings(node)`) as the set of nodes at which this
binding is visible, since the reachability engine lives in the
out-of-src cfg module. -/
structure Binding where
  id : Nat
  data : AbstractValue
  origins : List Origin
  visibleAt : List Nat
deriving DecidableEq, Repr

/-- A Variable: a named ordered collection of bindings. -/
structure Variable where
  name : String
  bindings : List Binding
deriving DecidableEq, Repr

/-- The subset of a variable's bindings visible at a node
(`Variable.Bindings(node)` in cfg.py, modelled via `visibleAt`). -/
def Variable.BindingsAt (v : Variable) (node : Nat) : List Binding :=
  v.bindings.filter (fun b => b.visibleAt.contains node)

/-- The data of the bindings visible at a node (`Variable.Data(node)`). -/
def Variable.DataAt (v : Variable) (node : Nat) : List AbstractValue :=
  (v.BindingsAt node).map (fun b => b.data)

/-- A frame of the interpreter call stack. Only the code object
reference (modelled by an id standing for object identity) matters for
the verified claims. -/
structure Frame where
  f_code : Nat
deriving DecidableEq, Repr

/-- The VM's frame bookkeeping: `frames` is the call stack (last element
is the top), `frame` the current frame (vm.py lines 92-93). -/
structure VMFrames where
  frames : List Frame
  frame : Option Frame
deriving DecidableEq, Repr

/-- vm.py `push_frame`: append the frame and make it current. -/
def push_frame (vm : VMFrames) (f : Frame) : VMFrames :=
  { frames := vm.frames ++ [f], frame := some f }

/-- vm.py `pop_frame`: pop the most recent frame; the assert that the
popped frame equals the argument is modelled by returning `none` on
violation. Afterwards the current frame is the new top, or `none` when
the stack is empty. -/
def pop_frame (vm : VMFrames) (f : Frame) : Option VMFrames :=
  match vm.frames.getLast? with
  | none => none
  | some popped =>
      if popped = f then
        some { frames := vm.frames.dropLast, frame := vm.frames.dropLast.getLast? }
      else none

/-- The frame-stack discipline of vm.py `run_frame`: push the frame,
run the block loop (abstracted as `body`, which acts on the whole VM
state), pop the frame. -/
def run_frame_stack (vm : VMFrames) (f : Frame) (body : VMFrames → VMFrames) :
    Option VMFrames :=
  pop_frame (body (push_frame vm f)) f

end Pytype

namespace Pytype

/-- vm.py `make_frame` raises RecursionException when the code object is
already active on the frame stack (vm.py lines 424-426); modelled as a
sum. The rest of frame construction is irrelevant to the claims. -/
inductive MakeFrameResult where
  | ok : Frame → MakeFrameResult
  | recursionExc : MakeFrameResult
deriving DecidableEq, Repr

/-- vm.py `make_frame`, restricted to its recursion check. -/
def make_frame (frames : List Frame) (code : Nat) : MakeFrameResult :=
  if frames.any (fun f => f.f_code == code) then .recursionExc
  else .ok { f_code := code }

/-- Error kinds reported through the errorlog collaborator. -/
inductive ErrKind where
  | invalidFunctionCall : Nat → ErrKind
  | unsupportedOperands : String → ErrKind
  | noneAttr : String → ErrKind
  | attributeError : String → ErrKind
  | otherError : Nat → ErrKind
deriving DecidableEq, Repr

/-- A FrameState snapshot: current node, operand stack, locals (slots),
termination reason `why`, pending exception. -/
structure FrameState where
  node : Nat
  data_stack : List Variable
  locals : List Variable
  why : Option String
  exception : Option String
deriving DecidableEq, Repr

def FrameState.set_why (s : FrameState) (w : String) : FrameState :=
  { s with why := some w }

def FrameState.set_exception (s : FrameState) (e : String) : FrameState :=
  { s with exception := some e }

/-- The outcome of dispatching one opcode handler: a new state together
with the errorlog as left by the handler, or one of the two exceptions
that vm.py `run_instruction` catches. -/
inductive DispatchOutcome where
  | ok : FrameState → List ErrKind → DispatchOutcome
  | recursionExc : List ErrKind → DispatchOutcome
  | bytecodeExc : String → List ErrKind → DispatchOutcome

/-- The final `why == "reraise"` fixup of vm.py `run_instruction`. -/
def reraiseFix (s : FrameState) : FrameState :=
  if s.why = some "reraise" then s.set_why "exception" else s

/-- vm.py `run_instruction`: dispatch the opcode; a RecursionException
sets why to "recursion" (no error reported); a ByteCodeException records
the exception and sets why to "exception"; finally "reraise" is turned
into "exception". -/
def run_instruction (dispatch : FrameState → List ErrKind → DispatchOutcome)
    (state : FrameState) (errorlog : List ErrKind) :
    FrameState × List ErrKind :=
  match dispatch state errorlog with
  | .ok s' log' => (reraiseFix s', log')
  | .recursionExc log' => (reraiseFix (state.set_why "recursion"), log')
  | .bytecodeExc e log' =>
      (reraiseFix ((state.set_exception e).set_why "exception"), log')

/-- The outcome of one candidate's `func.call(node, funcv, args)`:
either a post-call node and a result variable, or a FailedFunctionCall
(tagged, so distinct failures are distinguishable). The per-value call
semantics live in the out-of-src abstract value model and are a
parameter of the driver, exactly as in vm.py `call_function`. -/
inductive CallAttempt where
  | success : Nat → Variable → CallAttempt
  | failedCall : Nat → CallAttempt
deriving DecidableEq, Repr

/-- The two-element source set of the result binding and the callable
binding built by vm.py line 662, as a set of binding ids (Python set
semantics: one element when the two bindings are identical). -/
def sourceSetOf (b funcv : Binding) : List Nat :=
  if b.id = funcv.id then [funcv.id] else [b.id, funcv.id]

/-- The copies that one successful candidate call contributes to the
return variable (vm.py lines 660-662): for each binding of the
candidate's result, `result.AddBinding(binding.data)` followed by
`copy.AddOrigin(new_node, ...)` with the source set of that binding and
the triggering callable binding. -/
def resultBindingsFor (funcv : Binding) (newNode : Nat) (one_result : Variable) :
    List Binding :=
  one_result.bindings.map (fun b =>
    { id := b.id, data := b.data,
      origins := [{ node := newNode, sourceSets := [sourceSetOf b funcv] }],
      visibleAt := [newNode] })

/-- vm.py `join_cfg_nodes`: a single node is reused, several nodes are
joined through a fresh successor node (modelled by `freshNode`). -/
def joinNodes (freshNode : Nat) (nodes : List Nat) : Nat :=
  match nodes with
  | [n] => n
  | _ => freshNode

/-- `create_new_unsolvable(node, name)`: a fresh variable with a single
give-up binding whose origin at `node` has one empty source set. -/
def unsolvedVar (node : Nat) (name : String) : Variable :=
  { name := name,
    bindings := [{ id := 0, data := .unsolvable,
                   origins := [{ node := node, sourceSets := [[]] }],
                   visibleAt := [node] }] }

/-- What vm.py `call_function` returns: the resulting CFG node, the
return variable, and the errors this call reported to the errorlog. -/
structure CallFnOutcome where
  node : Nat
  ret : Variable
  reported : List ErrKind
deriving DecidableEq, Repr

/-- The accumulator of the loop over `funcu.bindings` in `call_function`:
result bindings collected so far, post-call nodes of the successes, and
the most recent failure (the leaked loop variable `e` that line 669
reports; `error`, the first failure, is only used for the assert and is
non-`none` exactly when this is). -/
def callFnStep (callImpl : Binding → CallAttempt)
    (acc : List Binding × List Nat × Option Nat) (funcv : Binding) :
    List Binding × List Nat × Option Nat :=
  match callImpl funcv with
  | .success newNode one_result =>
      (acc.1 ++ resultBindingsFor funcv newNode one_result,
       acc.2.1 ++ [newNode], acc.2.2)
  | .failedCall tag => (acc.1, acc.2.1, some tag)

/-- vm.py `call_function` (lines 634-674): invoke `call` independently
per binding of the callable variable, record failures without reporting
them, merge all successful results into one return variable (each result
binding with an origin at its post-call node sourced on the result
binding and the triggering callable binding), and join the post-call
nodes. If no candidate succeeded: with `fallback_to_unsolvable` report
one invalid-function-call error and return a give-up value, otherwise
report nothing and return the empty result variable. `none` models a
failed assert (`assert funcu.bindings`, `assert error`). -/
def call_function (node freshNode : Nat) (funcu : Variable)
    (callImpl : Binding → CallAttempt) (fallback_to_unsolvable : Bool) :
    Option CallFnOutcome :=
  if funcu.bindings.isEmpty then none else
  let acc := funcu.bindings.foldl (callFnStep callImpl) ([], [], none)
  let result : Variable := { name := "return", bindings := acc.1 }
  match acc.2.1 with
  | [] =>
      if fallback_to_unsolvable then
        match acc.2.2 with
        | some tag =>
            some { node := node, ret := unsolvedVar node "failed call",
                   reported := [.invalidFunctionCall tag] }
        | none => none
      else
        some { node := node, ret := result, reported := [] }
  | nodes => some { node := joinNodes freshNode nodes, ret := result, reported := [] }

end Pytype

namespace Pytype

/-- A binding of `MergeVariables`/`PasteVariable`: the original data
re-attached with an origin at the join node whose single source set is
the originating binding. Modelled from the spec: cfg.py is not in src/;
section 4.1 describes `MergeVariables` as producing bindings re-attached
with an Origin at the node whose SourceSet is the single originating
binding. -/
def reattach (node : Nat) (b : Binding) : Binding :=
  { id := b.id, data := b.data,
    origins := [{ node := node, sourceSets := [[b.id]] }],
    visibleAt := [node] }

/-- Modelled from the spec: cfg.py's `MergeVariables(node, name, vars)`
(spec section 4.1) unions all input bindings, re-attached at `node`; a
one-element input list is aliased instead of copied. -/
def MergeVariables (node : Nat) (name : String) (vars : List Variable) : Variable :=
  match vars with
  | [v] => v
  | _ => { name := name,
           bindings := (vars.map (fun v => v.bindings.map (reattach node))).flatten }

/-- The per-slot merge of two variables at a join point. -/
def mergeVar2 (node : Nat) (a b : Variable) : Variable :=
  MergeVariables node a.name [a, b]

/-- Modelled from the spec: state.py (FrameState.merge_into) is not in
src/; spec section 4.3 says the first time an offset is reached its
FrameState becomes the incoming state, and on every subsequent store the
incoming state is merged with the recorded one via MergeVariables
per-slot (operand stack and locals position-wise). -/
def FrameState.merge_into (s : FrameState) (other : Option FrameState) : FrameState :=
  match other with
  | none => s
  | some t =>
      { node := s.node,
        data_stack := List.zipWith (mergeVar2 s.node) s.data_stack t.data_stack,
        locals := List.zipWith (mergeVar2 s.node) s.locals t.locals,
        why := s.why, exception := s.exception }

/-- The frame's map from bytecode offset to recorded entry FrameState,
as an association list. -/
def statesGet (states : List (Nat × FrameState)) (target : Nat) :
    Option FrameState :=
  (states.find? (fun p => p.1 == target)).map (fun p => p.2)

def statesSet (states : List (Nat × FrameState)) (target : Nat) (s : FrameState) :
    List (Nat × FrameState) :=
  (target, s) :: states.filter (fun p => p.1 ≠ target)

/-- vm.py `store_jump` (lines 1476-1477):
`self.frame.states[target] = state.merge_into(self.frame.states.get(target))`. -/
def store_jump (states : List (Nat × FrameState)) (target : Nat)
    (state : FrameState) : List (Nat × FrameState) :=
  statesSet states target (state.merge_into (statesGet states target))

/-- The fall-through rollover of vm.py `run_frame` (line 193):
`frame.states[op.next] = state.merge_into(frame.states.get(op.next))`. -/
def rollover_store (states : List (Nat × FrameState)) (next : Nat)
    (state : FrameState) : List (Nat × FrameState) :=
  statesSet states next (state.merge_into (statesGet states next))

/-- The default of the `reverse_operators` keyword of
`VirtualMachine.__init__` (vm.py line 80). -/
def reverse_operators_default : Bool := false

/-- vm.py `reversable_operators` (lines 202-207). -/
def reversable_operators : List String :=
  ["__add__", "__sub__", "__mul__",
   "__div__", "__truediv__", "__floordiv__",
   "__mod__", "__divmod__", "__pow__",
   "__lshift__", "__rshift__", "__and__", "__or__", "__xor__"]

/-- vm.py `reverse_operator_name` (lines 209-213). -/
def reverse_operator_name (name : String) : Option String :=
  if reversable_operators.contains name then some ("__r" ++ name.drop 2)
  else none

/-- vm.py `call_binary_operator` (lines 563-590). The collaborating
lookups and calls are parameters: `lookupL s` is
`load_attr_noerror(state, x, s)` on the left operand, `lookupR s` the
same on the right operand, and `callOp attr arg` is
`call_function_with_state(state, attr, arg, fallback_to_unsolvable=False)`
(which reports no errors). Returns the result variable and the errors
this dispatch reported. The candidate result list (left operand's
method first, then - only under the reverse_operators flag - the right
operand's reflected method) is named `cboResults`. -/
def cboResults (reverse_operators : Bool) (name : String)
    (lookupL lookupR : String → Option Variable)
    (callOp : Variable → Variable → Variable)
    (x y : Variable) : List Variable :=
  let results :=
    match lookupL name with
    | none => []
    | some attr => [callOp attr y]
  if reverse_operators then
    match reverse_operator_name name with
    | some rname =>
        match lookupR rname with
        | none => results
        | some attr => results ++ [callOp attr x]
    | none => results
  else results

/-- The merged result variable of `call_binary_operator` (vm.py line
585). -/
def cboResult (reverse_operators : Bool) (node : Nat) (name : String)
    (lookupL lookupR : String → Option Variable)
    (callOp : Variable → Variable → Variable)
    (x y : Variable) : Variable :=
  MergeVariables node name
    (cboResults reverse_operators name lookupL lookupR callOp x y)

def call_binary_operator (reverse_operators : Bool) (node : Nat) (name : String)
    (lookupL lookupR : String → Option Variable)
    (callOp : Variable → Variable → Variable)
    (x y : Variable) (report_errors : Bool) : Variable × List ErrKind :=
  let result := cboResult reverse_operators node name lookupL lookupR callOp x y
  if result.bindings.isEmpty ∧ report_errors then
    (result, [.unsupportedOperands name])
  else (result, [])

/-- vm.py `binary_operator` (lines 607-611) on the operand stack (head
is the top of the stack): pop y then x, dispatch with report_errors
set, push the result; errors reported are appended to the errorlog. -/
def binary_operator_state (reverse_operators : Bool) (node : Nat) (name : String)
    (lookupL lookupR : String → Option Variable)
    (callOp : Variable → Variable → Variable)
    (stack : List Variable) (errorlog : List ErrKind) :
    Option (List Variable × List ErrKind) :=
  match stack with
  | y :: x :: rest =>
      let out := call_binary_operator reverse_operators node name
        lookupL lookupR callOp x y true
      some (out.1 :: rest, errorlog ++ out.2)
  | _ => none

/-- The extra binding added by
`state.top().AddBinding(self.convert.unsolvable, source_set=[], where=state.node)`
in vm.py `byte_BINARY_SUBSCR`. -/
def unsolvBinding (node : Nat) : Binding :=
  { id := 0, data := .unsolvable,
    origins := [{ node := node, sourceSets := [[]] }],
    visibleAt := [node] }

/-- vm.py `byte_BINARY_SUBSCR` (lines 1013-1026). The errorlog is an
append-only list; `errorlog.save()` is its current length and
`revert_to(checkpoint)` truncates back to it (errors.py is a
collaborator outside src/, modelled from its use here). If the
dispatched result has no bindings, the errorlog is reverted and a
give-up binding is added to the result on the stack. -/
def byte_BINARY_SUBSCR (reverse_operators : Bool) (node : Nat)
    (lookupL lookupR : String → Option Variable)
    (callOp : Variable → Variable → Variable)
    (stack : List Variable) (errorlog : List ErrKind) :
    Option (List Variable × List ErrKind) :=
  let checkpoint := errorlog.length
  match binary_operator_state reverse_operators node "__getitem__"
      lookupL lookupR callOp stack errorlog with
  | none => none
  | some (stack', log') =>
      match stack' with
      | top :: rest =>
          if top.bindings.isEmpty then
            some ({ top with bindings := top.bindings ++ [unsolvBinding node] } :: rest,
                  log'.take checkpoint)
          else some (top :: rest, log')
      | [] => none

end Pytype

namespace Pytype

/-- vm.py `_retrieve_attr` (lines 782-808): resolve the attribute
independently for each binding of `obj` visible at `node`; candidates
with no attribute (or an empty attribute variable) are skipped; the
found variables are pasted into one result; with no contribution the
result is absent. `getAttr` models `val.data.get_attribute_generic`
(abstract value model, outside src/), kept at the same node. -/
def retrieve_attr (node freshNode : Nat) (obj : Variable)
    (getAttr : AbstractValue → Option Variable) : Nat × Option Variable :=
  let contribs := (obj.BindingsAt node).filterMap (fun val =>
    match getAttr val.data with
    | none => none
    | some attr_var => if attr_var.bindings.isEmpty then none else some attr_var)
  match contribs with
  | [] => (node, none)
  | vs =>
      let result : Variable :=
        { name := "attr",
          bindings := (vs.map (fun v => v.bindings.map (reattach node))).flatten }
      (joinNodes freshNode (vs.map (fun _ => node)), some result)

/-- Whether an abstract value has a `cls` attribute equal to the None
type (the test of vm.py `_is_only_none`, line 814). -/
def hasNoneCls : AbstractValue → Bool
  | .inst (some c) => c == "NoneType"
  | _ => false

/-- vm.py `_is_only_none` (lines 810-818): true iff every value of the
object visible at the node is of the None type (vacuously true when no
value is visible). -/
def is_only_none (node : Nat) (obj : Variable) : Bool :=
  (obj.DataAt node).all hasNoneCls

/-- vm.py `load_attr` (lines 820-829): when the attribute is absent on
every visible binding and the object has at least one binding, report a
null-specific error if the object is provably only None and a generic
attribute error otherwise; in either case produce a give-up result. -/
def load_attr (node freshNode : Nat) (obj : Variable) (attrName : String)
    (getAttr : AbstractValue → Option Variable) :
    Nat × Variable × List ErrKind :=
  match retrieve_attr node freshNode obj getAttr with
  | (n2, some result) => (n2, result, [])
  | (n2, none) =>
      let errs :=
        if obj.bindings.isEmpty then []
        else if is_only_none node obj then [ErrKind.noneAttr attrName]
        else [ErrKind.attributeError attrName]
      (n2, unsolvedVar n2 "bad attr", errs)

/-- Modelled from the spec: cfg.py's Program, which is not in src/,
owns a monotonically increasing complexity counter; with abort enabled
(`abort_on_complex`, vm.py line 94) every graph mutation whose
cumulative cost exceeds the configured ceiling fails fatally with
ProgramTooComplexError (spec sections 3 and 4.1, test_quick.py). -/
structure Program where
  complexity : Nat
  ceiling : Option Nat
deriving DecidableEq, Repr

/-- The outcome of a graph mutation: the updated program, or the fatal
ProgramTooComplexError. -/
inductive MutationResult where
  | ok : Program → MutationResult
  | tooComplex : MutationResult
deriving DecidableEq, Repr

/-- Modelled from the spec: one graph mutation adds its cost to the
complexity counter and aborts fatally once the ceiling is exceeded. -/
def Program.addMutation (p : Program) (cost : Nat) : MutationResult :=
  let c := p.complexity + cost
  match p.ceiling with
  | some k => if k < c then .tooComplex else .ok { p with complexity := c }
  | none => .ok { p with complexity := c }

/-- A sequence of graph mutations; the fatal abort is terminal (it
propagates out of `run_program`, nothing catches it in vm.py). -/
def Program.runMutations (p : Program) (costs : List Nat) : MutationResult :=
  match costs with
  | [] => .ok p
  | c :: rest =>
      match p.addMutation c with
      | .ok p' => p'.runMutations rest
      | .tooComplex => .tooComplex

end Pytype

namespace Pytype

/-- Modelled from the spec: abstract.py is not in src/. A container
instance tracks its class and per-type-parameter recorded values;
element insertion merges into the parameter, it never replaces it
(spec sections 4.2 and 8; abstract_test.py InstanceTest and DictTest). -/
structure Instance where
  cls : String
  type_parameters : List (String × List AbstractValue)
deriving DecidableEq, Repr

/-- The container classes of the claim (list, set, dict). -/
def containerClasses : List String := ["list", "set", "dict"]

/-- Modelled from the spec: `init_type_parameters` declares the type
parameters, with no value recorded yet. -/
def Instance.init_type_parameters (i : Instance) (names : List String) : Instance :=
  { i with type_parameters := names.map (fun n => (n, [])) }

/-- Modelled from the spec: `merge_type_parameter` widens the named
parameter by the inserted value; types only grow, never shrink. -/
def Instance.merge_type_parameter (i : Instance) (name : String)
    (value : AbstractValue) : Instance :=
  { i with type_parameters := i.type_parameters.map (fun p =>
      if p.1 == name then (p.1, p.2 ++ [value]) else p) }

/-- Whether some type parameter has recorded at least one value. -/
def Instance.has_param (i : Instance) : Bool :=
  i.type_parameters.any (fun p => !p.2.isEmpty)

/-- Modelled from the spec: `compatible_with` — a never-populated
container is never truthy but always falsy; once at least one
element-type parameter is recorded the container is ambiguous (both);
non-containers are ambiguous (spec section 4.2; abstract_test.py
test_compatible_with_list, DictTest.test_compatible_with__when_empty). -/
def Instance.compatible_with (i : Instance) (logical_value : Bool) : Bool :=
  !(logical_value && containerClasses.contains i.cls && !i.has_param)

/-- The bindings one candidate contributes to `call_function`'s return
variable: its re-attached result bindings on success, nothing on
failure. -/
def successContrib (callImpl : Binding → CallAttempt) (funcv : Binding) :
    List Binding :=
  match callImpl funcv with
  | .success newNode one_result => resultBindingsFor funcv newNode one_result
  | .failedCall _ => []

/-- The post-call node a candidate contributes on success. -/
def successNode (callImpl : Binding → CallAttempt) (funcv : Binding) :
    Option Nat :=
  match callImpl funcv with
  | .success newNode _ => some newNode
  | .failedCall _ => none

/-- The property claimed of `call_function`'s provenance: every origin
of every binding of the return variable carries exactly the singleton
source set of the triggering callable binding. -/
def sourceSetIsExactlyCallable (out : CallFnOutcome) (callableId : Nat) : Bool :=
  out.ret.bindings.all (fun b =>
    b.origins.all (fun o => o.sourceSets == [[callableId]]))

/-- The observable per-slot content of a stack or locals row: the data
of each slot's bindings. -/
def slotData (vs : List Variable) : List (List AbstractValue) :=
  vs.map (fun v => v.bindings.map (fun b => b.data))

/-- Concrete callable binding used to evaluate the claims on a concrete
input. -/
def c1Funcv : Binding :=
  { id := 7, data := .other 1, origins := [], visibleAt := [1] }

/-- A concrete one-binding callable variable. -/
def c1Funcu : Variable := { name := "f", bindings := [c1Funcv] }

/-- A concrete result variable with one binding (id 9). -/
def c1Result : Variable :=
  { name := "r",
    bindings := [{ id := 9, data := .other 2, origins := [], visibleAt := [3] }] }

/-- A call implementation that succeeds on every candidate, returning
`c1Result` at post-call node 3. -/
def c1CallImpl : Binding → CallAttempt := fun _ => .success 3 c1Result

/-- A call implementation that fails on every candidate. -/
def cFailImpl : Binding → CallAttempt := fun b => .failedCall b.id

/-- A concrete variable with a single non-None instance binding visible
at node 1. -/
def sampleObj : Variable :=
  { name := "obj",
    bindings := [{ id := 4, data := .inst (some "A"), origins := [],
                   visibleAt := [1] }] }

/-- A concrete variable whose only visible value is of the None type. -/
def sampleNoneObj : Variable :=
  { name := "obj",
    bindings := [{ id := 5, data := .inst (some "NoneType"), origins := [],
                   visibleAt := [1] }] }

/-- A concrete FrameState used to evaluate theorems with hypotheses. -/
def sampleState : FrameState :=
  { node := 1, data_stack := [sampleObj], locals := [], why := none,
    exception := none }

/-- A second concrete FrameState, with the same stack shape. -/
def sampleState2 : FrameState :=
  { node := 2, data_stack := [sampleNoneObj], locals := [], why := none,
    exception := none }

end Pytype




namespace Pytype

/-- C10: the interpreter's call stack of frames is maintained LIFO:
`push_frame` appends the frame and makes it current; `pop_frame`
removes exactly the most recently pushed frame (which must equal the
frame being popped) and afterwards the current frame is the new top of
the stack, or none when the stack is empty; `run_frame` pushes its
frame on entry and pops it before returning, so the frame-stack length
is unchanged across any completed `run_frame` call. -/
theorem frame_stack_lifo (vm : VMFrames) (f : Frame) (body : VMFrames → VMFrames)
    (hbody : (body (push_frame vm f)).frames = (push_frame vm f).frames) :
    (push_frame vm f).frames = vm.frames ++ [f] ∧
    (push_frame vm f).frame = some f ∧
    pop_frame (push_frame vm f) f =
      some { frames := vm.frames, frame := vm.frames.getLast? } ∧
    (∀ vm' : VMFrames, vm'.frames = [] → ∀ g, pop_frame vm' g = none) ∧
    ∃ vmOut, run_frame_stack vm f body = some vmOut ∧
      vmOut.frames = vm.frames ∧ vmOut.frames.length = vm.frames.length ∧
      vmOut.frame = vm.frames.getLast? := by
  refine ⟨rfl, rfl, ?_, ?_, ?_⟩
  · simp [pop_frame, push_frame]
  · intro vm' h g
    simp [pop_frame, h]
  · refine ⟨{ frames := vm.frames, frame := vm.frames.getLast? }, ?_, rfl, rfl, rfl⟩
    unfold run_frame_stack pop_frame
    rw [hbody]
    simp [push_frame]

/-- C3: creating a frame for a code object that is already active on
the frame stack raises a RecursionException; `run_instruction` catches
it and sets the state's termination reason to "recursion" without
reporting any error and without a fatal failure. -/
theorem direct_recursion_quiet (frames : List Frame) (code : Nat)
    (h : ∃ f ∈ frames, f.f_code = code)
    (dispatch : FrameState → List ErrKind → DispatchOutcome)
    (state : FrameState) (errorlog : List ErrKind)
    (hd : dispatch state errorlog = .recursionExc errorlog) :
    make_frame frames code = .recursionExc ∧
    (run_instruction dispatch state errorlog).1 = state.set_why "recursion" ∧
    (run_instruction dispatch state errorlog).1.why = some "recursion" ∧
    (run_instruction dispatch state errorlog).2 = errorlog := by
  obtain ⟨f, hf, hfc⟩ := h
  have hany : frames.any (fun fr => fr.f_code == code) = true := by
    rw [List.any_eq_true]
    exact ⟨f, hf, by simp [hfc]⟩
  have hrw : ("recursion" : String) ≠ "reraise" := by decide
  refine ⟨by simp [make_frame, hany], ?_, ?_, ?_⟩ <;>
    simp [run_instruction, hd, reraiseFix, FrameState.set_why, hrw]

end Pytype

namespace Pytype

/-- Witness for C10 at a concrete one-frame stack with an identity
block loop. -/
theorem frame_stack_lifo_witness :
    ∃ vmOut, run_frame_stack ⟨[⟨1⟩], some ⟨1⟩⟩ ⟨2⟩ id = some vmOut ∧
      vmOut.frames = [⟨1⟩] ∧ vmOut.frames.length = 1 ∧
      vmOut.frame = some ⟨1⟩ :=
  (frame_stack_lifo ⟨[⟨1⟩], some ⟨1⟩⟩ ⟨2⟩ id rfl).2.2.2.2

/-- Witness for C3 at a concrete stack already holding code object 5. -/
theorem direct_recursion_quiet_witness :
    make_frame [⟨5⟩] 5 = .recursionExc ∧
    (run_instruction (fun _ l => .recursionExc l) sampleState []).1 =
      sampleState.set_why "recursion" ∧
    (run_instruction (fun _ l => .recursionExc l) sampleState []).1.why =
      some "recursion" ∧
    (run_instruction (fun _ l => .recursionExc l) sampleState []).2 = [] :=
  direct_recursion_quiet [⟨5⟩] 5 ⟨⟨5⟩, by simp, rfl⟩
    (fun _ l => .recursionExc l) sampleState [] rfl

end Pytype

namespace Pytype

/-- The data of a two-way slot merge is the concatenation of the data of
the two inputs: merging never replaces previously recorded bindings. -/
lemma mergeVar2_data (n : Nat) (a b : Variable) :
    (mergeVar2 n a b).bindings.map (fun x => x.data) =
      a.bindings.map (fun x => x.data) ++ b.bindings.map (fun x => x.data) := by
  simp [mergeVar2, MergeVariables, reattach, List.map_map, Function.comp_def]

/-- Per-slot merging acts on the observable slot data as position-wise
concatenation. -/
lemma slotData_zip_merge (n : Nat) :
    ∀ (l1 l2 : List Variable),
      slotData (List.zipWith (mergeVar2 n) l1 l2) =
        List.zipWith (fun a b => a ++ b) (slotData l1) (slotData l2)
  | [], l2 => by simp [slotData]
  | a :: l1, [] => by simp [slotData]
  | a :: l1, b :: l2 => by
      simp only [List.zipWith, slotData, List.map_cons]
      exact congrArg₂ List.cons (mergeVar2_data n a b)
        (slotData_zip_merge n l1 l2)

/-- Storing at an offset makes the recorded state retrievable there. -/
lemma statesGet_statesSet (states : List (Nat × FrameState)) (t : Nat)
    (s : FrameState) : statesGet (statesSet states t s) t = some s := by
  simp [statesGet, statesSet, List.find?]

/-- C4: for every bytecode offset, the first time a FrameState is
stored there (by `store_jump` or by the fall-through rollover of
`run_frame`) the offset's recorded entry state becomes that state; on
every subsequent store at the same offset the new incoming state is
merged per-slot with the previously recorded state (operand stack and
locals position-wise via MergeVariables) rather than replacing it. -/
theorem store_and_merge (states : List (Nat × FrameState)) (target : Nat)
    (s : FrameState) :
    (statesGet states target = none →
        statesGet (store_jump states target s) target = some s ∧
        statesGet (rollover_store states target s) target = some s) ∧
    (∀ old, statesGet states target = some old →
        statesGet (store_jump states target s) target =
          some (s.merge_into (some old)) ∧
        statesGet (rollover_store states target s) target =
          some (s.merge_into (some old)) ∧
        (s.merge_into (some old)).data_stack =
          List.zipWith (mergeVar2 s.node) s.data_stack old.data_stack ∧
        (s.merge_into (some old)).locals =
          List.zipWith (mergeVar2 s.node) s.locals old.locals ∧
        slotData (s.merge_into (some old)).data_stack =
          List.zipWith (fun a b => a ++ b) (slotData s.data_stack)
            (slotData old.data_stack)) := by
  constructor
  · intro hnone
    constructor <;>
      simp [store_jump, rollover_store, hnone, FrameState.merge_into,
            statesGet_statesSet]
  · intro old hold
    refine ⟨?_, ?_, rfl, rfl, ?_⟩
    · simp [store_jump, hold, statesGet_statesSet]
    · simp [rollover_store, hold, statesGet_statesSet]
    · exact slotData_zip_merge s.node s.data_stack old.data_stack

/-- Witness for C4: a first store records the state unchanged, and a
second store at the same offset merges rather than replaces. -/
theorem store_and_merge_witness :
    (statesGet (store_jump [] 0 sampleState) 0 = some sampleState ∧
     statesGet (rollover_store [] 0 sampleState) 0 = some sampleState) ∧
    statesGet (store_jump [(0, sampleState)] 0 sampleState2) 0 =
      some (sampleState2.merge_into (some sampleState)) ∧
    slotData (sampleState2.merge_into (some sampleState)).data_stack =
      List.zipWith (fun a b => a ++ b) (slotData sampleState2.data_stack)
        (slotData sampleState.data_stack) := by
  have h1 := (store_and_merge [] 0 sampleState).1 (by simp [statesGet])
  have h2 := (store_and_merge [(0, sampleState)] 0 sampleState2).2 sampleState
    (by simp [statesGet, List.find?])
  exact ⟨h1, h2.1, h2.2.2.2.2⟩

end Pytype


namespace Pytype

/-- A sequence of graph mutations whose cumulative cost pushes the
counter past the ceiling aborts fatally. -/
lemma runMutations_aborts (k : Nat) :
    ∀ (costs : List Nat) (pc : Nat), pc ≤ k → k < pc + costs.sum →
      Program.runMutations ⟨pc, some k⟩ costs = .tooComplex
  | [], pc, hb, hover => by
      simp at hover
      exact absurd hb (Nat.not_le.mpr hover)
  | c :: rest, pc, hb, hover => by
      rw [Program.runMutations, Program.addMutation]
      by_cases hstep : k < pc + c
      · simp [hstep]
      · have hle : pc + c ≤ k := Nat.not_lt.mp hstep
        simp only [hstep, if_false]
        exact runMutations_aborts k rest (pc + c) hle
          (by simpa [Nat.add_assoc] using hover)

/-- A sequence of graph mutations whose cumulative cost stays within
the ceiling never aborts and accumulates exactly the total cost. -/
lemma runMutations_ok (k : Nat) :
    ∀ (costs : List Nat) (pc : Nat), pc + costs.sum ≤ k →
      Program.runMutations ⟨pc, some k⟩ costs = .ok ⟨pc + costs.sum, some k⟩
  | [], pc, hb => by simp [Program.runMutations]
  | c :: rest, pc, hb => by
      have hsum : pc + (c :: rest).sum = pc + c + rest.sum := by
        simp [Nat.add_assoc]
      have hstep : pc + c ≤ k := by
        calc pc + c ≤ pc + c + rest.sum := Nat.le_add_right _ _
        _ = pc + (c :: rest).sum := hsum.symm
        _ ≤ k := hb
      rw [Program.runMutations, Program.addMutation]
      simp only [Nat.not_lt.mpr hstep, if_false]
      have := runMutations_ok k rest (pc + c) (by simpa [Nat.add_assoc] using hb)
      rw [this, hsum]

/-- C5: the Program's complexity counter increases monotonically under
graph mutations; with abort-on-complex enabled, a sequence of mutations
whose cumulative cost exceeds the configured ceiling fails fatally (the
ProgramTooComplexError is terminal in `runMutations`, modelling that
nothing in vm.py catches it before `run_program` returns), while a
sequence whose cumulative cost stays within the ceiling never aborts. -/
theorem complexity_ceiling (k : Nat) (p : Program) (costs : List Nat)
    (hc : p.ceiling = some k) (hb : p.complexity ≤ k) :
    (∀ (q : Program) (cost : Nat) (q' : Program),
        q.addMutation cost = .ok q' → q.complexity ≤ q'.complexity) ∧
    (k < p.complexity + costs.sum → p.runMutations costs = .tooComplex) ∧
    (p.complexity + costs.sum ≤ k →
        p.runMutations costs = .ok ⟨p.complexity + costs.sum, some k⟩) := by
  obtain ⟨pc, pceil⟩ := p
  simp only at hc hb ⊢
  subst hc
  refine ⟨?_, runMutations_aborts k costs pc hb, runMutations_ok k costs pc⟩
  intro q cost q' hok
  rw [Program.addMutation] at hok
  rcases hq : q.ceiling with _ | k'
  · rw [hq] at hok
    simp only [MutationResult.ok.injEq] at hok
    rw [← hok]
    exact Nat.le_add_right _ _
  · rw [hq] at hok
    by_cases hlt : k' < q.complexity + cost
    · simp [hlt] at hok
    · simp only [hlt, if_false, MutationResult.ok.injEq] at hok
      rw [← hok]
      exact Nat.le_add_right _ _

/-- Witness for C5 with ceiling 10: costs summing to 12 abort, costs
summing to 9 run to completion. -/
theorem complexity_ceiling_witness :
    Program.runMutations ⟨0, some 10⟩ [4, 4, 4] = .tooComplex ∧
    Program.runMutations ⟨0, some 10⟩ [4, 4, 1] = .ok ⟨9, some 10⟩ := by
  have h1 := (complexity_ceiling 10 ⟨0, some 10⟩ [4, 4, 4] rfl
    (by decide)).2.1 (by decide)
  have h2 := (complexity_ceiling 10 ⟨0, some 10⟩ [4, 4, 1] rfl
    (by decide)).2.2 (by decide)
  exact ⟨h1, h2⟩

end Pytype


namespace Pytype

/-- The loop of `call_function` over the callable's bindings collects
exactly the re-attached result bindings of the successful candidates,
in candidate order, and the post-call nodes of the successes. -/
lemma foldl_callFnStep_spec (callImpl : Binding → CallAttempt) :
    ∀ (l : List Binding) (acc : List Binding × List Nat × Option Nat),
      (l.foldl (callFnStep callImpl) acc).1 =
        acc.1 ++ (l.map (successContrib callImpl)).flatten ∧
      (l.foldl (callFnStep callImpl) acc).2.1 =
        acc.2.1 ++ l.filterMap (successNode callImpl)
  | [], acc => by simp
  | b :: l, acc => by
      rcases hcb : callImpl b with ⟨nn, res⟩ | t
      · have ih := foldl_callFnStep_spec callImpl l
          (acc.1 ++ resultBindingsFor b nn res, acc.2.1 ++ [nn], acc.2.2)
        simp only [List.foldl_cons, callFnStep, hcb, successContrib, successNode,
          List.map_cons, List.flatten_cons, List.filterMap_cons]
        exact ⟨by rw [ih.1, List.append_assoc],
               by rw [ih.2, List.append_assoc]; rfl⟩
      · have ih := foldl_callFnStep_spec callImpl l (acc.1, acc.2.1, some t)
        simp only [List.foldl_cons, callFnStep, hcb, successContrib, successNode,
          List.map_cons, List.flatten_cons, List.filterMap_cons]
        exact ⟨by simpa using ih.1, by simpa using ih.2⟩

/-- When every candidate's call fails, the loop of `call_function`
collects no result binding and no node, and records some failure. -/
lemma foldl_callFnStep_allfail (callImpl : Binding → CallAttempt) :
    ∀ (l : List Binding) (acc : List Binding × List Nat × Option Nat),
      (∀ b ∈ l, ∃ t, callImpl b = .failedCall t) →
      (l.foldl (callFnStep callImpl) acc).1 = acc.1 ∧
      (l.foldl (callFnStep callImpl) acc).2.1 = acc.2.1 ∧
      (l ≠ [] → ∃ t, (l.foldl (callFnStep callImpl) acc).2.2 = some t)
  | [], acc, _ => by simp
  | b :: l, acc, hfail => by
      obtain ⟨t, ht⟩ := hfail b (by simp)
      have hrest := foldl_callFnStep_allfail callImpl l
        (acc.1, acc.2.1, some t) (fun x hx => hfail x (by simp [hx]))
      rcases l with _ | ⟨b2, l2⟩
      · simp [callFnStep, ht]
      · exact ⟨by simpa [callFnStep, ht] using hrest.1,
               by simpa [callFnStep, ht] using hrest.2.1,
               fun _ => by
                 simpa [callFnStep, ht] using hrest.2.2 (by simp)⟩

end Pytype

namespace Pytype

/-- C1 counterexample: on a concrete call with one callable binding
(id 7) whose call succeeds with one result binding (id 9) at post-call
node 3, the origin that vm.py line 662 attaches to the re-attached
result binding carries the source set of binding 9 together with
binding 7 — not exactly the singleton of the triggering callable
binding as the claim states, so `sourceSetIsExactlyCallable` is false
on this outcome. -/
theorem claimC1_refuted :
    (call_function 1 2 c1Funcu c1CallImpl true).map
        (fun out => (sourceSetIsExactlyCallable out 7,
                     out.ret.bindings.map (fun b => b.origins))) =
      some (false, [[{ node := 3, sourceSets := [[9, 7]] }]]) := by
  rfl

/-- C1 (amended): `call` is invoked independently per binding of the
callable variable; every per-binding failure is recorded but not
reported; if at least one candidate succeeds, the successful results
are merged into one return variable in candidate order, and each result
binding is re-attached with an Origin at that candidate's post-call
node whose SourceSet consists of the original result binding together
with the triggering callable binding. -/
theorem call_function_correct (node freshNode : Nat) (funcu : Variable)
    (callImpl : Binding → CallAttempt)
    (hne : funcu.bindings ≠ [])
    (funcw : Binding) (hw : funcw ∈ funcu.bindings)
    (nn : Nat) (res : Variable) (hsucc : callImpl funcw = .success nn res) :
    ∃ out, call_function node freshNode funcu callImpl true = some out ∧
      out.reported = [] ∧
      out.ret.bindings = (funcu.bindings.map (successContrib callImpl)).flatten ∧
      out.node =
        joinNodes freshNode (funcu.bindings.filterMap (successNode callImpl)) ∧
      (∀ funcv ∈ funcu.bindings, ∀ n2 r2, callImpl funcv = .success n2 r2 →
        ∀ b ∈ r2.bindings,
          ({ id := b.id, data := b.data,
             origins := [{ node := n2, sourceSets := [sourceSetOf b funcv] }],
             visibleAt := [n2] } : Binding) ∈ out.ret.bindings) := by
  have hempty : funcu.bindings.isEmpty = false := by
    simpa [List.isEmpty_iff] using hne
  have hspec := foldl_callFnStep_spec callImpl funcu.bindings ([], [], none)
  have hmemnode : nn ∈ funcu.bindings.filterMap (successNode callImpl) :=
    List.mem_filterMap.mpr ⟨funcw, hw, by simp [successNode, hsucc]⟩
  have hmem : ∀ funcv ∈ funcu.bindings, ∀ n2 r2,
      callImpl funcv = .success n2 r2 → ∀ b ∈ r2.bindings,
      ({ id := b.id, data := b.data,
         origins := [{ node := n2, sourceSets := [sourceSetOf b funcv] }],
         visibleAt := [n2] } : Binding) ∈
        (funcu.bindings.map (successContrib callImpl)).flatten := by
    intro funcv hv n2 r2 hcall b hb
    refine List.mem_flatten.mpr ⟨successContrib callImpl funcv,
      List.mem_map_of_mem _ hv, ?_⟩
    simp only [successContrib, hcall, resultBindingsFor]
    exact List.mem_map_of_mem _ hb
  cases hfm : funcu.bindings.filterMap (successNode callImpl) with
  | nil => exact absurd (hfm ▸ hmemnode) (List.not_mem_nil nn)
  | cons n0 ns =>
      refine ⟨{ node := joinNodes freshNode (n0 :: ns),
                ret := { name := "return",
                         bindings := (funcu.bindings.map
                           (successContrib callImpl)).flatten },
                reported := [] }, ?_, rfl, rfl, by simp [hfm], hmem⟩
      rw [call_function]
      simp only [hempty, Bool.false_eq_true, if_false]
      have hn : (funcu.bindings.foldl (callFnStep callImpl) ([], [], none)).2.1 =
          n0 :: ns := by
        rw [hspec.2, hfm]
        rfl
      have hb : (funcu.bindings.foldl (callFnStep callImpl) ([], [], none)).1 =
          (funcu.bindings.map (successContrib callImpl)).flatten := by
        rw [hspec.1]
        rfl
      rw [hn, hb]

/-- Witness for the amended C1 on the concrete one-candidate call that
also exhibits the counterexample. -/
theorem call_function_correct_witness :
    ∃ out, call_function 1 2 c1Funcu c1CallImpl true = some out ∧
      out.reported = [] ∧
      out.ret.bindings = (c1Funcu.bindings.map (successContrib c1CallImpl)).flatten ∧
      out.node =
        joinNodes 2 (c1Funcu.bindings.filterMap (successNode c1CallImpl)) ∧
      (∀ funcv ∈ c1Funcu.bindings, ∀ n2 r2, c1CallImpl funcv = .success n2 r2 →
        ∀ b ∈ r2.bindings,
          ({ id := b.id, data := b.data,
             origins := [{ node := n2, sourceSets := [sourceSetOf b funcv] }],
             visibleAt := [n2] } : Binding) ∈ out.ret.bindings) :=
  call_function_correct 1 2 c1Funcu c1CallImpl (by simp [c1Funcu])
    c1Funcv (by simp [c1Funcu]) 3 c1Result rfl

/-- C2: when no candidate binding's call succeeds, `call_function`
reports exactly one invalid-function-call error and returns a give-up
(unsolvable) value without crashing; with fallback_to_unsolvable turned
off it reports nothing and returns the empty result variable. -/
theorem call_function_all_fail (node freshNode : Nat) (funcu : Variable)
    (callImpl : Binding → CallAttempt)
    (hne : funcu.bindings ≠ [])
    (hfail : ∀ funcv ∈ funcu.bindings, ∃ t, callImpl funcv = .failedCall t) :
    (∃ t, call_function node freshNode funcu callImpl true =
        some { node := node, ret := unsolvedVar node "failed call",
               reported := [ErrKind.invalidFunctionCall t] }) ∧
    (unsolvedVar node "failed call").bindings.map (fun b => b.data) =
      [AbstractValue.unsolvable] ∧
    call_function node freshNode funcu callImpl false =
      some { node := node, ret := { name := "return", bindings := [] },
             reported := [] } := by
  have hempty : funcu.bindings.isEmpty = false := by
    simpa [List.isEmpty_iff] using hne
  obtain ⟨h1, h2, h3⟩ :=
    foldl_callFnStep_allfail callImpl funcu.bindings ([], [], none) hfail
  obtain ⟨t, ht⟩ := h3 hne
  have h2' : (funcu.bindings.foldl (callFnStep callImpl) ([], [], none)).2.1 =
      ([] : List Nat) := h2
  have h1' : (funcu.bindings.foldl (callFnStep callImpl) ([], [], none)).1 =
      ([] : List Binding) := h1
  refine ⟨⟨t, ?_⟩, by simp [unsolvedVar], ?_⟩
  · rw [call_function]
    simp only [hempty, Bool.false_eq_true, if_false]
    rw [h2', ht]
    simp
  · rw [call_function]
    simp only [hempty, Bool.false_eq_true, if_false]
    rw [h2', h1']

/-- Witness for C2 on a concrete one-candidate call whose only
candidate fails. -/
theorem call_function_all_fail_witness :
    (∃ t, call_function 1 2 c1Funcu cFailImpl true =
        some { node := 1, ret := unsolvedVar 1 "failed call",
               reported := [ErrKind.invalidFunctionCall t] }) ∧
    (unsolvedVar 1 "failed call").bindings.map (fun b => b.data) =
      [AbstractValue.unsolvable] ∧
    call_function 1 2 c1Funcu cFailImpl false =
      some { node := 1, ret := { name := "return", bindings := [] },
             reported := [] } :=
  call_function_all_fail 1 2 c1Funcu cFailImpl (by simp [c1Funcu])
    (fun b _ => ⟨b.id, rfl⟩)

end Pytype


namespace Pytype

/-- The first component of `call_binary_operator` is always the merged
result variable, whether or not an error is reported. -/
lemma call_binary_operator_fst (rev : Bool) (node : Nat) (name : String)
    (lookupL lookupR : String → Option Variable)
    (callOp : Variable → Variable → Variable) (x y : Variable)
    (report_errors : Bool) :
    (call_binary_operator rev node name lookupL lookupR callOp x y
        report_errors).1 =
      cboResult rev node name lookupL lookupR callOp x y := by
  rw [call_binary_operator]
  split <;> rfl

/-- The errors of `call_binary_operator`: one unsupported-operands
error exactly when the merged result is empty and reporting was
requested. -/
lemma call_binary_operator_snd (rev : Bool) (node : Nat) (name : String)
    (lookupL lookupR : String → Option Variable)
    (callOp : Variable → Variable → Variable) (x y : Variable)
    (report_errors : Bool) :
    (call_binary_operator rev node name lookupL lookupR callOp x y
        report_errors).2 =
      if (cboResult rev node name lookupL lookupR callOp x y).bindings.isEmpty
          ∧ report_errors then
        [ErrKind.unsupportedOperands name]
      else [] := by
  rw [call_binary_operator]
  split <;> rfl

/-- C6: binary/inplace operator dispatch tries the left operand's
method first; the right operand's reflected method is consulted only
when the reverse_operators flag is enabled (with the flag off, the
outcome does not depend on the right-operand lookup at all), and the
flag defaults to off; an unsupported-operands error is reported if and
only if error reporting was requested and the dispatches together
produced a result variable with zero bindings. -/
theorem binary_operator_dispatch (rev : Bool) (node : Nat) (name : String)
    (lookupL lookupR lookupR' : String → Option Variable)
    (callOp : Variable → Variable → Variable) (x y : Variable)
    (report_errors : Bool) :
    reverse_operators_default = false ∧
    call_binary_operator false node name lookupL lookupR callOp x y
        report_errors =
      call_binary_operator false node name lookupL lookupR' callOp x y
        report_errors ∧
    (∀ attrL, lookupL name = some attrL →
        ∀ rname, reverse_operator_name name = some rname →
        ∀ attrR, lookupR rname = some attrR →
        (call_binary_operator true node name lookupL lookupR callOp x y
            report_errors).1 =
          MergeVariables node name [callOp attrL y, callOp attrR x]) ∧
    ((call_binary_operator rev node name lookupL lookupR callOp x y
        report_errors).2 ≠ [] ↔
      (report_errors = true ∧
       (call_binary_operator rev node name lookupL lookupR callOp x y
          report_errors).1.bindings = [])) := by
  refine ⟨rfl, rfl, ?_, ?_⟩
  · intro attrL hL rname hrname attrR hR
    simp only [call_binary_operator_fst, cboResult, cboResults, hL, hrname,
      hR, if_true, List.singleton_append]
  · rw [call_binary_operator_fst, call_binary_operator_snd]
    by_cases hemp :
        (cboResult rev node name lookupL lookupR callOp x y).bindings = []
    · rcases report_errors with _ | _ <;> simp [hemp, List.isEmpty_iff]
    · rcases report_errors with _ | _ <;> simp [hemp, List.isEmpty_iff]

/-- Witness for C6 at a concrete dispatch: with the flag off the
right-operand lookup is immaterial, and with it on both methods are
dispatched, left first. -/
theorem binary_operator_dispatch_witness :
    reverse_operators_default = false ∧
    call_binary_operator false 1 "__add__" (fun _ => some sampleObj)
        (fun _ => some sampleNoneObj) (fun a _ => a) sampleObj sampleObj
        true =
      call_binary_operator false 1 "__add__" (fun _ => some sampleObj)
        (fun _ => none) (fun a _ => a) sampleObj sampleObj true ∧
    (call_binary_operator true 1 "__add__" (fun _ => some sampleObj)
        (fun _ => some sampleNoneObj) (fun a _ => a) sampleObj sampleObj
        true).1 =
      MergeVariables 1 "__add__" [sampleObj, sampleNoneObj] := by
  obtain ⟨h1, h2, h3, _⟩ := binary_operator_dispatch true 1 "__add__"
    (fun _ => some sampleObj) (fun _ => some sampleNoneObj)
    (fun _ => none) (fun a _ => a) sampleObj sampleObj true
  exact ⟨h1, h2, h3 sampleObj rfl "__radd__" (by decide) sampleNoneObj rfl⟩

end Pytype

namespace Pytype

/-- C7: for an attribute load on an object variable with at least one
binding where the name is absent on every binding visible at the query
node, exactly one error is reported; it is the null-specific variant
precisely when every value of the object at that node is of the None
type, and the generic attribute error otherwise; either way a give-up
result is produced. -/
theorem load_attr_missing (node freshNode : Nat) (obj : Variable)
    (attrName : String) (getAttr : AbstractValue → Option Variable)
    (hne : obj.bindings ≠ [])
    (habsent : ∀ val ∈ obj.BindingsAt node,
        (getAttr val.data).elim True (fun v => v.bindings = [])) :
    load_attr node freshNode obj attrName getAttr =
      (node, unsolvedVar node "bad attr",
       if is_only_none node obj then [ErrKind.noneAttr attrName]
       else [ErrKind.attributeError attrName]) ∧
    (load_attr node freshNode obj attrName getAttr).2.2.length = 1 ∧
    (is_only_none node obj = true ↔
      ∀ d ∈ obj.DataAt node, hasNoneCls d = true) := by
  have hcontribs : (obj.BindingsAt node).filterMap (fun val =>
      match getAttr val.data with
      | none => none
      | some attr_var =>
          if attr_var.bindings.isEmpty then none else some attr_var) = [] := by
    rw [List.filterMap_eq_nil_iff]
    intro val hval
    have hv := habsent val hval
    rcases hga : getAttr val.data with _ | v
    · rfl
    · rw [hga] at hv
      simp only [Option.elim] at hv
      simp [hv]
  have hretr : retrieve_attr node freshNode obj getAttr = (node, none) := by
    rw [retrieve_attr, hcontribs]
  have hempty : obj.bindings.isEmpty = false := by
    simpa [List.isEmpty_iff] using hne
  have hmain : load_attr node freshNode obj attrName getAttr =
      (node, unsolvedVar node "bad attr",
       if is_only_none node obj then [ErrKind.noneAttr attrName]
       else [ErrKind.attributeError attrName]) := by
    rw [load_attr, hretr]
    simp [hempty]
  refine ⟨hmain, ?_, by simp [is_only_none, List.all_eq_true]⟩
  rw [hmain]
  split <;> rfl

/-- Witness for C7: loading a missing attribute from a variable whose
only visible value is a None instance reports the null-specific
variant. -/
theorem load_attr_missing_witness :
    load_attr 1 2 sampleNoneObj "foo" (fun _ => none) =
      (1, unsolvedVar 1 "bad attr",
       if is_only_none 1 sampleNoneObj then [ErrKind.noneAttr "foo"]
       else [ErrKind.attributeError "foo"]) ∧
    (load_attr 1 2 sampleNoneObj "foo" (fun _ => none)).2.2.length = 1 ∧
    (is_only_none 1 sampleNoneObj = true ↔
      ∀ d ∈ sampleNoneObj.DataAt 1, hasNoneCls d = true) :=
  load_attr_missing 1 2 sampleNoneObj "foo" (fun _ => none)
    (by simp [sampleNoneObj]) (fun val _ => by simp)

end Pytype

namespace Pytype

/-- Recording one element-type parameter on a declared parameter makes
the container populated. -/
lemma has_param_after_merge (i : Instance) (pname : String)
    (value : AbstractValue)
    (hp : i.type_parameters.any (fun p => p.1 == pname) = true) :
    (i.merge_type_parameter pname value).has_param = true := by
  rw [List.any_eq_true] at hp
  obtain ⟨p, hpmem, hpeq⟩ := hp
  rw [Instance.has_param, Instance.merge_type_parameter, List.any_eq_true]
  refine ⟨(p.1, p.2 ++ [value]), List.mem_map.mpr ⟨p, hpmem, by simp [hpeq]⟩,
    by simp⟩

/-- C8: a container (list, set, dict) that has never been populated is
not compatible with True but is compatible with False; once at least
one element-type parameter is recorded the container is ambiguous:
compatible with both True and False. -/
theorem container_truthiness (cls : String) (names : List String)
    (hcls : containerClasses.contains cls = true)
    (i : Instance) (_hic : containerClasses.contains i.cls = true)
    (pname : String) (value : AbstractValue)
    (hp : i.type_parameters.any (fun p => p.1 == pname) = true) :
    (Instance.init_type_parameters { cls := cls, type_parameters := [] }
        names).compatible_with true = false ∧
    (Instance.init_type_parameters { cls := cls, type_parameters := [] }
        names).compatible_with false = true ∧
    (i.merge_type_parameter pname value).compatible_with true = true ∧
    (i.merge_type_parameter pname value).compatible_with false = true := by
  have hnp : (Instance.init_type_parameters
      { cls := cls, type_parameters := [] } names).has_param = false := by
    simp [Instance.init_type_parameters, Instance.has_param, List.any_map,
      Function.comp_def]
  have hmp := has_param_after_merge i pname value hp
  refine ⟨?_, ?_, ?_, ?_⟩
  · rw [Instance.compatible_with, hnp]
    simp [Instance.init_type_parameters, hcls]
    simpa using hcls
  · simp [Instance.compatible_with]
  · rw [Instance.compatible_with, hmp]
    simp
  · simp [Instance.compatible_with]

/-- Witness for C8 on a concrete list container with one declared
parameter T. -/
theorem container_truthiness_witness :
    (Instance.init_type_parameters { cls := "list", type_parameters := [] }
        ["T"]).compatible_with true = false ∧
    (Instance.init_type_parameters { cls := "list", type_parameters := [] }
        ["T"]).compatible_with false = true ∧
    (Instance.merge_type_parameter ⟨"list", [("T", [])]⟩ "T"
        (.inst (some "int"))).compatible_with true = true ∧
    (Instance.merge_type_parameter ⟨"list", [("T", [])]⟩ "T"
        (.inst (some "int"))).compatible_with false = true :=
  container_truthiness "list" ["T"] (by decide)
    ⟨"list", [("T", [])]⟩ (by decide)
    "T" (.inst (some "int")) (by decide)

end Pytype

namespace Pytype

/-- C9: when the __getitem__ dispatch of BINARY_SUBSCR produces a
result with zero bindings, the unsupported-operands error that the
dispatch reported is reverted (the errorlog ends exactly as it began)
and a give-up binding is pushed as the result instead; the second
conjunct shows the dispatch had indeed appended the error before the
revert. -/
theorem subscr_silent (rev : Bool) (node : Nat)
    (lookupL lookupR : String → Option Variable)
    (callOp : Variable → Variable → Variable)
    (y x : Variable) (rest : List Variable) (errorlog : List ErrKind)
    (hempty : (call_binary_operator rev node "__getitem__" lookupL lookupR
        callOp x y true).1.bindings = []) :
    byte_BINARY_SUBSCR rev node lookupL lookupR callOp (y :: x :: rest)
        errorlog =
      some ({ (call_binary_operator rev node "__getitem__" lookupL lookupR
                callOp x y true).1 with
              bindings := [unsolvBinding node] } :: rest,
            errorlog) ∧
    binary_operator_state rev node "__getitem__" lookupL lookupR callOp
        (y :: x :: rest) errorlog =
      some ((call_binary_operator rev node "__getitem__" lookupL lookupR
              callOp x y true).1 :: rest,
            errorlog ++ [ErrKind.unsupportedOperands "__getitem__"]) := by
  have hfst := call_binary_operator_fst rev node "__getitem__" lookupL lookupR
    callOp x y true
  have hcbe : (cboResult rev node "__getitem__" lookupL lookupR
      callOp x y).bindings = [] := hfst ▸ hempty
  have hsnd : (call_binary_operator rev node "__getitem__" lookupL lookupR
      callOp x y true).2 = [ErrKind.unsupportedOperands "__getitem__"] := by
    rw [call_binary_operator_snd, if_pos ⟨by simp [hcbe], rfl⟩]
  have hbos : binary_operator_state rev node "__getitem__" lookupL lookupR
      callOp (y :: x :: rest) errorlog =
      some ((call_binary_operator rev node "__getitem__" lookupL lookupR
              callOp x y true).1 :: rest,
            errorlog ++ [ErrKind.unsupportedOperands "__getitem__"]) := by
    rw [binary_operator_state, hsnd]
  refine ⟨?_, hbos⟩
  rw [byte_BINARY_SUBSCR, hbos]
  simp [hempty, List.take_left]

/-- Witness for C9: a concrete subscript whose container has no
__getitem__ produces an empty dispatch, a reverted errorlog and a
give-up result. -/
theorem subscr_silent_witness :
    byte_BINARY_SUBSCR false 1 (fun _ => none) (fun _ => none)
        (fun a _ => a) [sampleObj, sampleObj] [ErrKind.otherError 0] =
      some ({ (call_binary_operator false 1 "__getitem__" (fun _ => none)
                (fun _ => none) (fun a _ => a) sampleObj sampleObj true).1 with
              bindings := [unsolvBinding 1] } :: [],
            [ErrKind.otherError 0]) ∧
    binary_operator_state false 1 "__getitem__" (fun _ => none)
        (fun _ => none) (fun a _ => a) [sampleObj, sampleObj]
        [ErrKind.otherError 0] =
      some ((call_binary_operator false 1 "__getitem__" (fun _ => none)
              (fun _ => none) (fun a _ => a) sampleObj sampleObj true).1 :: [],
            [ErrKind.otherError 0] ++
              [ErrKind.unsupportedOperands "__getitem__"]) :=
  subscr_silent false 1 (fun _ => none) (fun _ => none) (fun a _ => a)
    sampleObj sampleObj [] [ErrKind.otherError 0] rfl

end Pytype
